import Mathlib

/-!
Verification of the signal-viewer frontend (`RecurrenceViewer.jsx`, which
bundles the `RecurrenceViewer`, `PolarViewer` and `FileUploader` components).

Numbers are modelled as rationals (`ℚ`), array indices as naturals, and the
raw slider values `timeStart` / `timeEnd` as integers.  JavaScript's
out-of-range array read (`undefined`) is modelled with `List.get?`, and the
`v || d` falsy-fallback idiom with `jsOrNum`.  The `setError` side effect is
modelled as a field of the result: `none` means `setError` was not called,
`some none` means `setError(null)`, `some (some m)` means `setError(m)`.
-/

namespace SignalViewer

/-- JavaScript `v || d` for numbers: `undefined` (here `none`) and the falsy
number `0` both fall back to the default `d`. -/
def jsOrNum (v : Option ℚ) (d : ℚ) : ℚ :=
  match v with
  | none => d
  | some x => if x = 0 then d else x

/-- `timeData[i] || i`, the time-label lookup used when a recurrence point or
polar point is built. -/
def timeGet (timeData : List ℚ) (i : ℕ) : ℚ :=
  jsOrNum (timeData.get? i) (i : ℚ)

/-- One entry of the `dataRanges` memo: `{ min, max, range: max - min }`. -/
structure DataRange where
  min : ℚ
  max : ℚ
  range : ℚ
deriving DecidableEq

/-- `dataRanges[c]?.range || 1`. -/
def lookupRange (dataRanges : ℕ → Option DataRange) (c : ℕ) : ℚ :=
  jsOrNum ((dataRanges c).map DataRange.range) 1

/-- `dataRanges[c]?.min || 0`. -/
def lookupMin (dataRanges : ℕ → Option DataRange) (c : ℕ) : ℚ :=
  jsOrNum ((dataRanges c).map DataRange.min) 0

/-- `const start = Math.max(0, timeStart)`. -/
def clampStart (timeStart : ℤ) : ℤ :=
  max 0 timeStart

/-- `const end = Math.min(dataX.length, dataY.length, timeEnd)`. -/
def clampEnd (lenX lenY : ℕ) (timeEnd : ℤ) : ℤ :=
  min (min (lenX : ℤ) (lenY : ℤ)) timeEnd

/-- `similarity = Math.max(0, 1 - Math.abs(x - y) / threshold)`. -/
def similarity (x y threshold : ℚ) : ℚ :=
  max 0 (1 - |x - y| / threshold)

/-- The similarity of the pair of samples at absolute indices `i`, `j`:
values are optionally normalized by the channel ranges first, then compared
with `similarity`.  Mirrors the body of the inner loop of `recurrenceData`. -/
def simAt (dataX dataY : List ℚ) (normalize : Bool)
    (minX minY rangeX rangeY threshold : ℚ) (i j : ℕ) : ℚ :=
  let valX := dataX.getD i 0
  let valY := dataY.getD j 0
  let x := if normalize then (valX - minX) / rangeX else valX
  let y := if normalize then (valY - minY) / rangeY else valY
  similarity x y threshold

/-- One entry of the `points` list built by `recurrenceData`. -/
structure RecPoint where
  x : ℕ
  y : ℕ
  value : ℚ
  originalX : ℚ
  originalY : ℚ
  timeX : ℚ
  timeY : ℚ
deriving DecidableEq

/-- The conditional point push of the inner loop: a point is produced exactly
when the similarity at `(start + di, start + dj)` exceeds `0.5`; the stored
coordinates are window relative (`i - start`, `j - start`). -/
def recPointIf (dataX dataY timeData : List ℚ) (normalize : Bool)
    (minX minY rangeX rangeY threshold : ℚ) (start di dj : ℕ) : Option RecPoint :=
  if 1 / 2 <
      simAt dataX dataY normalize minX minY rangeX rangeY threshold
        (start + di) (start + dj) then
    some
      { x := di
        y := dj
        value :=
          simAt dataX dataY normalize minX minY rangeX rangeY threshold
            (start + di) (start + dj)
        originalX := dataX.getD (start + di) 0
        originalY := dataY.getD (start + dj) 0
        timeX := timeGet timeData (start + di)
        timeY := timeGet timeData (start + dj) }
  else none

/-- The `points` list accumulated over the double loop `i, j ∈ [start, end)`,
with `n = end - start`. -/
def recPoints (dataX dataY timeData : List ℚ) (normalize : Bool)
    (minX minY rangeX rangeY threshold : ℚ) (start n : ℕ) : List RecPoint :=
  (List.range n).flatMap fun di =>
    (List.range n).filterMap fun dj =>
      recPointIf dataX dataY timeData normalize minX minY rangeX rangeY threshold
        start di dj

/-- The similarity `matrix` accumulated over the double loop. -/
def recMatrix (dataX dataY : List ℚ) (normalize : Bool)
    (minX minY rangeX rangeY threshold : ℚ) (start n : ℕ) : List (List ℚ) :=
  (List.range n).map fun di =>
    (List.range n).map fun dj =>
      simAt dataX dataY normalize minX minY rangeX rangeY threshold
        (start + di) (start + dj)

/-- The value of the `recurrenceData` memo, together with the `setError`
effect it performs. -/
structure RecResult where
  points : List RecPoint
  matrix : List (List ℚ)
  maxX : ℕ
  maxY : ℕ
  rangeX : Option ℚ
  rangeY : Option ℚ
  minX : Option ℚ
  minY : Option ℚ
  errorEffect : Option (Option String)
deriving DecidableEq

/-- The `recurrenceData` memo of `RecurrenceViewer`.  Its inputs are exactly
the memo's dependency array: `channels, channelX, channelY, timeStart,
timeEnd, threshold, normalize, dataRanges, timeData`. -/
def recurrenceData (channels : List (List ℚ)) (channelX channelY : ℕ)
    (timeStart timeEnd : ℤ) (threshold : ℚ) (normalize : Bool)
    (dataRanges : ℕ → Option DataRange) (timeData : List ℚ) : RecResult :=
  match channels.get? channelX, channels.get? channelY with
  | some dataX, some dataY =>
    let start := clampStart timeStart
    let stop := clampEnd dataX.length dataY.length timeEnd
    if stop ≤ start then
      { points := [], matrix := [], maxX := 0, maxY := 0
        rangeX := none, rangeY := none, minX := none, minY := none
        errorEffect := some (some "Invalid time range") }
    else
      let rangeX := lookupRange dataRanges channelX
      let rangeY := lookupRange dataRanges channelY
      let minX := lookupMin dataRanges channelX
      let minY := lookupMin dataRanges channelY
      let s := start.toNat
      let n := (stop - start).toNat
      { points :=
          recPoints dataX dataY timeData normalize minX minY rangeX rangeY
            threshold s n
        matrix :=
          recMatrix dataX dataY normalize minX minY rangeX rangeY threshold s n
        maxX := n
        maxY := n
        rangeX := some rangeX
        rangeY := some rangeY
        minX := some minX
        minY := some minY
        errorEffect := some none }
  | _, _ =>
      { points := [], matrix := [], maxX := 0, maxY := 0
        rangeX := none, rangeY := none, minX := none, minY := none
        errorEffect := none }

/-- The display mode of `PolarViewer`: `'cumulative'` or `'sliding'`. -/
inductive PolarMode where
  | cumulative
  | sliding
deriving DecidableEq

/-- One entry of the list produced by the `polarData` memo. -/
structure PolarPoint where
  index : ℕ
  time : ℚ
  value : ℚ
  angle : ℚ
  radius : ℚ
  originalValue : ℚ
deriving DecidableEq

/-- `startIdx`: `0` in cumulative mode,
`Math.max(0, currentIndex - timeWindow + 1)` in sliding mode. -/
def polarStartIdx (mode : PolarMode) (currentIndex timeWindow : ℕ) : ℕ :=
  match mode with
  | .sliding => (max 0 ((currentIndex : ℤ) - timeWindow + 1)).toNat
  | .cumulative => 0

/-- `endIdx`: `selectedData.length` in cumulative mode, `currentIndex + 1` in
sliding mode. -/
def polarEndIdx (mode : PolarMode) (currentIndex dataLen : ℕ) : ℕ :=
  match mode with
  | .sliding => currentIndex + 1
  | .cumulative => dataLen

/-- The radius of a polar point: optionally normalized to the 0–100 range by
the padded data range, then clamped with `Math.max(0, Math.min(100, r))`.
Caution on faithfulness: rational division is total (`x / 0 = 0`), while in
JS a constant channel with normalization on divides `0 / 0 = NaN`, which
escapes `Math.min`/`Math.max`.  Statements about the clamped bounds therefore
carry the hypothesis that the range is nonzero when normalization is on —
under it this definition agrees with the JS arithmetic exactly. -/
def polarRadius (value drMin range : ℚ) (normalize : Bool) : ℚ :=
  max 0 (min 100 (if normalize then ((value - drMin) / range) * 100 else value))

/-- The polar point built for sample index `i`: angle maps the index to
0–360 degrees via `(i / selectedData.length) * 360`, the time label uses the
`timeData[i] || i` fallback. -/
def polarPointAt (selectedData timeData : List ℚ) (drMin range : ℚ)
    (normalize : Bool) (i : ℕ) : PolarPoint :=
  { index := i
    time := timeGet timeData i
    value := selectedData.getD i 0
    angle := ((i : ℚ) / selectedData.length) * 360
    radius := polarRadius (selectedData.getD i 0) drMin range normalize
    originalValue := selectedData.getD i 0 }

/-- The `polarData` memo of `PolarViewer`: empty for an empty channel,
otherwise the loop `for i in [startIdx, endIdx)` over the selected mode's
window, with `range = dataRange.max - dataRange.min`. -/
def polarData (selectedData timeData : List ℚ) (drMin drMax : ℚ)
    (mode : PolarMode) (currentIndex timeWindow : ℕ) (normalize : Bool) :
    List PolarPoint :=
  if selectedData.length = 0 then []
  else
    (List.range' (polarStartIdx mode currentIndex timeWindow)
        (polarEndIdx mode currentIndex selectedData.length -
          polarStartIdx mode currentIndex timeWindow)).map
      (polarPointAt selectedData timeData drMin (drMax - drMin) normalize)

/-- The playback-relevant state of `PolarViewer`: the play/pause flag, the
sliding-window index, and whether a `setTimeout` timer is pending. -/
structure PolarPlaybackState where
  playback : Bool
  currentIndex : ℕ
  timerPending : Bool
deriving DecidableEq

/-- The body of the playback `useEffect`: when `playback && mode === 'sliding'`
a timer is armed; otherwise `clearTimeout` cancels any pending timer.  The
effect itself never touches the index. -/
def playbackEffect (mode : PolarMode) (st : PolarPlaybackState) :
    PolarPlaybackState :=
  if st.playback = true ∧ mode = PolarMode.sliding then
    { st with timerPending := true }
  else
    { st with timerPending := false }

/-- The cleanup function returned by the playback effect:
`() => clearTimeout(animationRef.current)`. -/
def playbackCleanup (st : PolarPlaybackState) : PolarPlaybackState :=
  { st with timerPending := false }

/-- One firing of the `animate` timer: `next = prev + speed`; if `next`
reaches `selectedData.length`, playback is switched off and the index keeps
its previous value, otherwise the index advances; the timer re-arms itself in
either case (the effect re-run then clears it once playback is off). -/
def animateStep (speed dataLen : ℕ) (st : PolarPlaybackState) :
    PolarPlaybackState :=
  if dataLen ≤ st.currentIndex + speed then
    { st with playback := false, timerPending := true }
  else
    { st with currentIndex := st.currentIndex + speed, timerPending := true }

/-- The signal-type tag that selects the upload size limit. -/
inductive SignalType where
  | medical
  | acoustic
  | stock
  | microbiome
deriving DecidableEq

/-- `sizeLimits` of `FileUploader`, in MB per signal type. -/
def sizeLimits : SignalType → ℕ
  | .medical => 500
  | .acoustic => 200
  | .stock => 100
  | .microbiome => 500

/-- The component state touched by `uploadFile`. -/
structure UploadState where
  uploading : Bool
  error : Option String
deriving DecidableEq

/-- The observable outcome of one `uploadFile` call: the final component
state, the number of POST requests issued, and the number of calls to the
`onDataLoaded` callback. -/
structure UploadOutcome where
  state : UploadState
  requestsSent : ℕ
  dataLoadedCalls : ℕ
deriving DecidableEq

/-- `FileUploader.uploadFile`: a file whose size exceeds
`sizeLimits[signalType] * 1024 * 1024` is rejected before any request;
otherwise exactly one POST is issued and its outcome `post` (success, or an
error whose optional payload stands for `err.response?.data?.error`)
determines the final state via the `catch`/`finally` blocks. -/
def uploadFile (signalType : SignalType) (fileSize : ℕ)
    (post : Except (Option String) Unit) (st : UploadState) : UploadOutcome :=
  if sizeLimits signalType * 1024 * 1024 < fileSize then
    { state :=
        { st with
          error := some ("File too large. Max size: " ++
            toString (sizeLimits signalType) ++ "MB") }
      requestsSent := 0
      dataLoadedCalls := 0 }
  else
    match post with
    | Except.ok _ =>
        { state := { uploading := false, error := none }
          requestsSent := 1
          dataLoadedCalls := 1 }
    | Except.error e =>
        { state :=
            { uploading := false
              error := some (e.getD "Error uploading file") }
          requestsSent := 1
          dataLoadedCalls := 0 }

/-- A concrete polar point used to exercise the transform: the single sample
`5` of a one-sample channel with padded range `[0, 10]`, normalized. -/
def samplePolarPoint : PolarPoint :=
  { index := 0
    time := 0
    value := 5
    angle := 0
    radius := 50
    originalValue := 5 }

/-- The polar point built for the stale sliding-window index 1 on a
one-sample channel: its angle is `(1 / 1) * 360 = 360`, and its value falls
back to 0 because the read is past the end of the channel. -/
def stalePolarPoint : PolarPoint :=
  { index := 1
    time := 1
    value := 0
    angle := 360
    radius := 0
    originalValue := 0 }

/-- A concrete playback state used to exercise the playback effect. -/
def samplePlaybackState : PolarPlaybackState :=
  { playback := true
    currentIndex := 0
    timerPending := true }

/-- A concrete component state used to exercise `uploadFile`. -/
def sampleUploadState : UploadState :=
  { uploading := false
    error := none }

/-- A concrete recurrence point used to exercise the computation on sample
inputs: the point emitted for the pair `(0, 0)` of a two-sample channel
compared with itself, without normalization. -/
def samplePoint : RecPoint :=
  { x := 0
    y := 0
    value := 1
    originalX := 0
    originalY := 0
    timeX := 0
    timeY := 0 }

/-- C1: for every pair of sample values, every data range, and every
threshold > 0, the recurrence similarity `max(0, 1 - |x - y| / threshold)`
lies in [0, 1], in both the normalized (`normalize = true`) and
non-normalized (`normalize = false`) cases. -/
theorem simAt_mem_unit_interval (dataX dataY : List ℚ) (normalize : Bool)
    (minX minY rangeX rangeY threshold : ℚ) (i j : ℕ) (ht : 0 < threshold) :
    0 ≤ simAt dataX dataY normalize minX minY rangeX rangeY threshold i j ∧
      simAt dataX dataY normalize minX minY rangeX rangeY threshold i j ≤ 1 := by
  unfold simAt similarity
  refine ⟨le_max_left 0 _, max_le (by norm_num) ?_⟩
  have hd : 0 ≤ |(if normalize then (dataX.getD i 0 - minX) / rangeX else dataX.getD i 0) -
      (if normalize then (dataY.getD j 0 - minY) / rangeY else dataY.getD j 0)| / threshold :=
    div_nonneg (abs_nonneg _) ht.le
  linarith

/-- Witness for C1 at a concrete input. -/
theorem simAt_mem_unit_interval_witness :
    (0 : ℚ) < 1 ∧
      (0 ≤ simAt [0] [0] false 0 0 1 1 1 0 0 ∧
        simAt [0] [0] false 0 0 1 1 1 0 0 ≤ 1) :=
  ⟨by norm_num, simAt_mem_unit_interval [0] [0] false 0 0 1 1 1 0 0 (by norm_num)⟩

/-- Helper: characterisation of a successful conditional point push. -/
theorem recPointIf_eq_some (dataX dataY timeData : List ℚ) (normalize : Bool)
    (minX minY rangeX rangeY threshold : ℚ) (start di dj : ℕ) (p : RecPoint)
    (h : recPointIf dataX dataY timeData normalize minX minY rangeX rangeY
        threshold start di dj = some p) :
    p.x = di ∧ p.y = dj ∧
      p.value = simAt dataX dataY normalize minX minY rangeX rangeY threshold
        (start + di) (start + dj) ∧
      1 / 2 < p.value ∧
      p.timeX = timeGet timeData (start + di) ∧
      p.timeY = timeGet timeData (start + dj) := by
  unfold recPointIf at h
  split_ifs at h with hs
  injection h with h
  subst h
  exact ⟨rfl, rfl, rfl, hs, rfl, rfl⟩

/-- Helper: every point in the `points` list has window-relative coordinates
below `n`, a similarity value above `1/2`, and time labels obtained through
the `timeData[i] || i` fallback. -/
theorem recPoints_mem (dataX dataY timeData : List ℚ) (normalize : Bool)
    (minX minY rangeX rangeY threshold : ℚ) (start n : ℕ) (p : RecPoint)
    (hp : p ∈ recPoints dataX dataY timeData normalize minX minY rangeX rangeY
        threshold start n) :
    p.x < n ∧ p.y < n ∧ 1 / 2 < p.value ∧
      p.value = simAt dataX dataY normalize minX minY rangeX rangeY threshold
        (start + p.x) (start + p.y) ∧
      p.timeX = timeGet timeData (start + p.x) ∧
      p.timeY = timeGet timeData (start + p.y) := by
  unfold recPoints at hp
  simp only [List.mem_flatMap, List.mem_filterMap, List.mem_range] at hp
  obtain ⟨di, hdi, dj, hdj, hf⟩ := hp
  obtain ⟨hx, hy, hv, hlt, htX, htY⟩ :=
    recPointIf_eq_some dataX dataY timeData normalize minX minY rangeX rangeY
      threshold start di dj p hf
  subst hx
  subst hy
  exact ⟨hdi, hdj, hlt, hv, htX, htY⟩

/-- Helper: reading `timeData[i]` past the end of `timeData` yields the
fallback value `i`. -/
theorem timeGet_oob (timeData : List ℚ) (i : ℕ) (h : timeData.length ≤ i) :
    timeGet timeData i = (i : ℚ) := by
  simp [timeGet, jsOrNum, List.get?_eq_getElem?, List.getElem?_eq_none h]

/-- C2 counterexample: with both selected channels of length 10, `timeData`
of length 5 and `timeEnd = 10`, the effective end
`min(dataX.length, dataY.length, timeEnd) = 10` exceeds
`timeData.length = 5`. -/
theorem clampEnd_can_exceed_timeData :
    ¬ clampEnd (List.replicate 10 (0 : ℚ)).length
        (List.replicate 10 (0 : ℚ)).length 10
        ≤ ((List.replicate 5 (0 : ℚ)).length : ℤ) := by
  decide

/-- C2 (amended): the clamped start is never negative; and the clamped end
does not exceed `timeData.length` whenever one of the selected channels is no
longer than `timeData` (in particular under the aligned-bundle invariant) or
the requested `timeEnd` already lies within `timeData`. -/
theorem clamp_start_nonneg_end_le_timeData (dataX dataY timeData : List ℚ)
    (timeStart timeEnd : ℤ)
    (h : dataX.length ≤ timeData.length ∨ dataY.length ≤ timeData.length ∨
      timeEnd ≤ (timeData.length : ℤ)) :
    0 ≤ clampStart timeStart ∧
      clampEnd dataX.length dataY.length timeEnd ≤ (timeData.length : ℤ) := by
  refine ⟨le_max_left 0 timeStart, ?_⟩
  unfold clampEnd
  rcases h with h | h | h
  · exact le_trans (le_trans (min_le_left _ _) (min_le_left _ _))
      (by exact_mod_cast h)
  · exact le_trans (le_trans (min_le_left _ _) (min_le_right _ _))
      (by exact_mod_cast h)
  · exact le_trans (min_le_right _ _) h

/-- Witness for the amended C2 at a concrete input. -/
theorem clamp_start_nonneg_end_le_timeData_witness :
    (([(0 : ℚ)]).length ≤ ([(0 : ℚ), 0]).length ∨
      ([(0 : ℚ), 0, 0]).length ≤ ([(0 : ℚ), 0]).length ∨
      (5 : ℤ) ≤ (([(0 : ℚ), 0]).length : ℤ)) ∧
    (0 ≤ clampStart (-3) ∧
      clampEnd ([(0 : ℚ)]).length ([(0 : ℚ), 0, 0]).length 5
        ≤ (([(0 : ℚ), 0]).length : ℤ)) :=
  ⟨Or.inl (by decide),
    clamp_start_nonneg_end_le_timeData [0] [0, 0, 0] [0, 0] (-3) 5
      (Or.inl (by decide))⟩

/-- C3: when `timeData` is shorter than the selected channels (the unenforced
aligned-bundle invariant is violated), the recurrence computation still
succeeds and handles the out-of-range read defensively: every emitted point
whose absolute index lies past the end of `timeData` carries the fallback
label `i` (from the JS idiom `timeData[i] || i`) rather than failing. -/
theorem recurrence_timeData_oob_defensive (channels : List (List ℚ))
    (channelX channelY : ℕ) (timeStart timeEnd : ℤ) (threshold : ℚ)
    (normalize : Bool) (dataRanges : ℕ → Option DataRange) (timeData : List ℚ)
    (p : RecPoint)
    (hp : p ∈ (recurrenceData channels channelX channelY timeStart timeEnd
        threshold normalize dataRanges timeData).points) :
    (timeData.length ≤ (clampStart timeStart).toNat + p.x →
      p.timeX = ((clampStart timeStart).toNat + p.x : ℚ)) ∧
    (timeData.length ≤ (clampStart timeStart).toNat + p.y →
      p.timeY = ((clampStart timeStart).toNat + p.y : ℚ)) := by
  rcases e1 : channels.get? channelX with _ | dataX <;>
    rcases e2 : channels.get? channelY with _ | dataY <;>
      simp only [recurrenceData, e1, e2] at hp
  · exact absurd hp (List.not_mem_nil p)
  · exact absurd hp (List.not_mem_nil p)
  · exact absurd hp (List.not_mem_nil p)
  · split_ifs at hp with hle
    · exact absurd hp (List.not_mem_nil p)
    · obtain ⟨-, -, -, -, htX, htY⟩ :=
        recPoints_mem dataX dataY timeData normalize
          (lookupMin dataRanges channelX) (lookupMin dataRanges channelY)
          (lookupRange dataRanges channelX) (lookupRange dataRanges channelY)
          threshold (clampStart timeStart).toNat
          (clampEnd dataX.length dataY.length timeEnd - clampStart timeStart).toNat
          p hp
      refine ⟨fun h => ?_, fun h => ?_⟩
      · rw [htX, timeGet_oob _ _ h]
        push_cast
        ring
      · rw [htY, timeGet_oob _ _ h]
        push_cast
        ring

/-- Witness for C3 at a concrete input: both channels have two samples while
`timeData` is empty; the first emitted point carries the fallback labels. -/
theorem recurrence_timeData_oob_defensive_witness :
    samplePoint ∈
      (recurrenceData [[0, 0]] 0 0 0 2 1 false (fun _ => none) []).points ∧
    ((([] : List ℚ).length ≤ (clampStart 0).toNat + samplePoint.x →
        samplePoint.timeX = ((clampStart 0).toNat + samplePoint.x : ℚ)) ∧
      (([] : List ℚ).length ≤ (clampStart 0).toNat + samplePoint.y →
        samplePoint.timeY = ((clampStart 0).toNat + samplePoint.y : ℚ))) :=
  ⟨by
    norm_num [recurrenceData, recPoints, recPointIf, simAt, similarity,
      timeGet, jsOrNum, lookupRange, lookupMin, clampStart, clampEnd,
      samplePoint]
    exact ⟨0, by norm_num, 0, by norm_num, by norm_num⟩,
    recurrence_timeData_oob_defensive [[0, 0]] 0 0 0 2 1 false (fun _ => none)
      [] samplePoint
      (by
        norm_num [recurrenceData, recPoints, recPointIf, simAt, similarity,
          timeGet, jsOrNum, lookupRange, lookupMin, clampStart, clampEnd,
          samplePoint]
        exact ⟨0, by norm_num, 0, by norm_num, by norm_num⟩)⟩

/-- C6: the recurrence-plot computation is a pure, deterministic transform of
its inputs: two runs with equal inputs (channels, selected channel indices,
time range, threshold, normalize flag, data ranges, time labels) produce equal
points and matrix, with no dependence on hidden or persisted state. -/
theorem recurrenceData_deterministic (channels channels' : List (List ℚ))
    (channelX channelX' channelY channelY' : ℕ)
    (timeStart timeStart' timeEnd timeEnd' : ℤ) (threshold threshold' : ℚ)
    (normalize normalize' : Bool)
    (dataRanges dataRanges' : ℕ → Option DataRange)
    (timeData timeData' : List ℚ)
    (h1 : channels = channels') (h2 : channelX = channelX')
    (h3 : channelY = channelY') (h4 : timeStart = timeStart')
    (h5 : timeEnd = timeEnd') (h6 : threshold = threshold')
    (h7 : normalize = normalize') (h8 : dataRanges = dataRanges')
    (h9 : timeData = timeData') :
    recurrenceData channels channelX channelY timeStart timeEnd threshold
        normalize dataRanges timeData =
      recurrenceData channels' channelX' channelY' timeStart' timeEnd'
        threshold' normalize' dataRanges' timeData' := by
  subst h1
  subst h2
  subst h3
  subst h4
  subst h5
  subst h6
  subst h7
  subst h8
  subst h9
  rfl

/-- Witness for C6 at a concrete input. -/
theorem recurrenceData_deterministic_witness :
    ([[(0 : ℚ), 1]] = [[(0 : ℚ), 1]]) ∧
      recurrenceData [[(0 : ℚ), 1]] 0 0 0 2 1 true (fun _ => none) [] =
        recurrenceData [[(0 : ℚ), 1]] 0 0 0 2 1 true (fun _ => none) [] :=
  ⟨rfl,
    recurrenceData_deterministic [[0, 1]] [[0, 1]] 0 0 0 0 0 0 2 2 1 1 true
      true (fun _ => none) (fun _ => none) [] [] rfl rfl rfl rfl rfl rfl rfl
      rfl rfl⟩

/-- C7: over two selected channels, a valid clamped window (start < end)
produces a square pairwise similarity matrix of side `end - start` — one
similarity entry for every ordered pair of window indices — with
`maxX = maxY = end - start` and the error cleared; an empty clamped window
(start ≥ end) instead sets the error `"Invalid time range"` and returns an
empty points list and empty matrix. -/
theorem recurrenceData_square (channels : List (List ℚ))
    (channelX channelY : ℕ) (timeStart timeEnd : ℤ) (threshold : ℚ)
    (normalize : Bool) (dataRanges : ℕ → Option DataRange) (timeData : List ℚ)
    (dataX dataY : List ℚ)
    (hX : channels.get? channelX = some dataX)
    (hY : channels.get? channelY = some dataY) :
    (clampStart timeStart < clampEnd dataX.length dataY.length timeEnd →
      (recurrenceData channels channelX channelY timeStart timeEnd threshold
          normalize dataRanges timeData).matrix.length =
        (clampEnd dataX.length dataY.length timeEnd - clampStart timeStart).toNat ∧
      (∀ row ∈ (recurrenceData channels channelX channelY timeStart timeEnd
          threshold normalize dataRanges timeData).matrix,
        row.length =
          (clampEnd dataX.length dataY.length timeEnd - clampStart timeStart).toNat) ∧
      (recurrenceData channels channelX channelY timeStart timeEnd threshold
          normalize dataRanges timeData).maxX =
        (clampEnd dataX.length dataY.length timeEnd - clampStart timeStart).toNat ∧
      (recurrenceData channels channelX channelY timeStart timeEnd threshold
          normalize dataRanges timeData).maxY =
        (clampEnd dataX.length dataY.length timeEnd - clampStart timeStart).toNat ∧
      (recurrenceData channels channelX channelY timeStart timeEnd threshold
          normalize dataRanges timeData).errorEffect = some none) ∧
    (clampEnd dataX.length dataY.length timeEnd ≤ clampStart timeStart →
      (recurrenceData channels channelX channelY timeStart timeEnd threshold
          normalize dataRanges timeData).points = [] ∧
      (recurrenceData channels channelX channelY timeStart timeEnd threshold
          normalize dataRanges timeData).matrix = [] ∧
      (recurrenceData channels channelX channelY timeStart timeEnd threshold
          normalize dataRanges timeData).errorEffect =
        some (some "Invalid time range")) := by
  constructor
  · intro hlt
    simp only [recurrenceData, hX, hY]
    rw [if_neg (not_le.mpr hlt)]
    refine ⟨by simp [recMatrix], ?_, rfl, rfl, rfl⟩
    intro row hrow
    simp only [recMatrix, List.mem_map] at hrow
    obtain ⟨di, -, hdi⟩ := hrow
    subst hdi
    simp
  · intro hle
    simp only [recurrenceData, hX, hY]
    rw [if_pos hle]
    exact ⟨rfl, rfl, rfl⟩

/-- Witness for C7 at a concrete input with a valid window. -/
theorem recurrenceData_square_witness :
    ([[(0 : ℚ), 1], [(1 : ℚ), 0]].get? 0 = some [(0 : ℚ), 1]) ∧
    ([[(0 : ℚ), 1], [(1 : ℚ), 0]].get? 1 = some [(1 : ℚ), 0]) ∧
    ((clampStart 0 < clampEnd ([(0 : ℚ), 1]).length ([(1 : ℚ), 0]).length 2 →
      (recurrenceData [[(0 : ℚ), 1], [(1 : ℚ), 0]] 0 1 0 2 1 true
          (fun _ => none) []).matrix.length =
        (clampEnd ([(0 : ℚ), 1]).length ([(1 : ℚ), 0]).length 2 -
          clampStart 0).toNat ∧
      (∀ row ∈ (recurrenceData [[(0 : ℚ), 1], [(1 : ℚ), 0]] 0 1 0 2 1 true
          (fun _ => none) []).matrix,
        row.length =
          (clampEnd ([(0 : ℚ), 1]).length ([(1 : ℚ), 0]).length 2 -
            clampStart 0).toNat) ∧
      (recurrenceData [[(0 : ℚ), 1], [(1 : ℚ), 0]] 0 1 0 2 1 true
          (fun _ => none) []).maxX =
        (clampEnd ([(0 : ℚ), 1]).length ([(1 : ℚ), 0]).length 2 -
          clampStart 0).toNat ∧
      (recurrenceData [[(0 : ℚ), 1], [(1 : ℚ), 0]] 0 1 0 2 1 true
          (fun _ => none) []).maxY =
        (clampEnd ([(0 : ℚ), 1]).length ([(1 : ℚ), 0]).length 2 -
          clampStart 0).toNat ∧
      (recurrenceData [[(0 : ℚ), 1], [(1 : ℚ), 0]] 0 1 0 2 1 true
          (fun _ => none) []).errorEffect = some none) ∧
    (clampEnd ([(0 : ℚ), 1]).length ([(1 : ℚ), 0]).length 2 ≤ clampStart 0 →
      (recurrenceData [[(0 : ℚ), 1], [(1 : ℚ), 0]] 0 1 0 2 1 true
          (fun _ => none) []).points = [] ∧
      (recurrenceData [[(0 : ℚ), 1], [(1 : ℚ), 0]] 0 1 0 2 1 true
          (fun _ => none) []).matrix = [] ∧
      (recurrenceData [[(0 : ℚ), 1], [(1 : ℚ), 0]] 0 1 0 2 1 true
          (fun _ => none) []).errorEffect =
        some (some "Invalid time range"))) :=
  ⟨rfl, rfl,
    recurrenceData_square [[(0 : ℚ), 1], [(1 : ℚ), 0]] 0 1 0 2 1 true
      (fun _ => none) [] [0, 1] [1, 0] rfl rfl⟩

/-- Helper: the similarity exceeds `1/2` exactly when the compared values
differ by less than half the threshold. -/
theorem similarity_gt_half_iff (x y t : ℚ) (ht : 0 < t) :
    1 / 2 < similarity x y t ↔ |x - y| < t / 2 := by
  unfold similarity
  rw [lt_max_iff]
  have hdt : |x - y| / t < 1 / 2 ↔ |x - y| < t / 2 := by
    rw [div_lt_iff₀ ht]
    constructor <;> intro h <;> linarith
  constructor
  · rintro (h | h)
    · norm_num at h
    · exact hdt.mp (by linarith)
  · intro h
    have := hdt.mpr h
    exact Or.inr (by linarith)

/-- C8: every point emitted into the recurrence points list has a similarity
value strictly greater than 0.5 — for a positive threshold this means the
compared values differ by less than `threshold / 2` — and window-relative
coordinates `x`, `y` below the window size (`maxX` and `maxY`, both equal to
`end - start`). -/
theorem recurrenceData_points_inv (channels : List (List ℚ))
    (channelX channelY : ℕ) (timeStart timeEnd : ℤ) (threshold : ℚ)
    (normalize : Bool) (dataRanges : ℕ → Option DataRange) (timeData : List ℚ)
    (p : RecPoint)
    (hp : p ∈ (recurrenceData channels channelX channelY timeStart timeEnd
        threshold normalize dataRanges timeData).points) :
    (1 / 2 < p.value ∧
      p.x < (recurrenceData channels channelX channelY timeStart timeEnd
        threshold normalize dataRanges timeData).maxX ∧
      p.y < (recurrenceData channels channelX channelY timeStart timeEnd
        threshold normalize dataRanges timeData).maxY) ∧
    ∀ q r : ℚ, 0 < threshold →
      (1 / 2 < similarity q r threshold ↔ |q - r| < threshold / 2) := by
  refine ⟨?_, fun q r ht => similarity_gt_half_iff q r threshold ht⟩
  rcases e1 : channels.get? channelX with _ | dataX <;>
    rcases e2 : channels.get? channelY with _ | dataY <;>
      simp only [recurrenceData, e1, e2] at hp ⊢
  · exact absurd hp (List.not_mem_nil p)
  · exact absurd hp (List.not_mem_nil p)
  · exact absurd hp (List.not_mem_nil p)
  · split_ifs at hp ⊢ with hle
    · exact absurd hp (List.not_mem_nil p)
    · obtain ⟨hx, hy, hlt, -, -, -⟩ :=
        recPoints_mem dataX dataY timeData normalize
          (lookupMin dataRanges channelX) (lookupMin dataRanges channelY)
          (lookupRange dataRanges channelX) (lookupRange dataRanges channelY)
          threshold (clampStart timeStart).toNat
          (clampEnd dataX.length dataY.length timeEnd - clampStart timeStart).toNat
          p hp
      exact ⟨hlt, hx, hy⟩

/-- Witness for C8 at a concrete input. -/
theorem recurrenceData_points_inv_witness :
    samplePoint ∈
      (recurrenceData [[0, 0]] 0 0 0 2 1 false (fun _ => none) [0, 1]).points ∧
    ((1 / 2 < samplePoint.value ∧
      samplePoint.x <
        (recurrenceData [[0, 0]] 0 0 0 2 1 false (fun _ => none) [0, 1]).maxX ∧
      samplePoint.y <
        (recurrenceData [[0, 0]] 0 0 0 2 1 false (fun _ => none) [0, 1]).maxY) ∧
    ∀ q r : ℚ, 0 < (1 : ℚ) →
      (1 / 2 < similarity q r 1 ↔ |q - r| < 1 / 2)) :=
  ⟨by
    norm_num [recurrenceData, recPoints, recPointIf, simAt, similarity,
      timeGet, jsOrNum, lookupRange, lookupMin, clampStart, clampEnd,
      samplePoint]
    exact ⟨0, by norm_num, 0, by norm_num, by norm_num⟩,
    recurrenceData_points_inv [[0, 0]] 0 0 0 2 1 false (fun _ => none) [0, 1]
      samplePoint
      (by
        norm_num [recurrenceData, recPoints, recPointIf, simAt, similarity,
          timeGet, jsOrNum, lookupRange, lookupMin, clampStart, clampEnd,
          samplePoint]
        exact ⟨0, by norm_num, 0, by norm_num, by norm_num⟩)⟩

/-- C9 counterexample: the claim fails as stated.  In sliding mode with a
stale index — `currentIndex = 1` on a one-sample channel, a reachable state
because the index is reset only when the selected channel changes, not when
new (shorter) data loads — the loop runs `i = 1` and the emitted point has
`angle = (1 / 1) * 360 = 360`, outside `[0, 360)`. -/
theorem polarData_angle_reaches_360 :
    stalePolarPoint ∈
      polarData [(5 : ℚ)] [] 0 10 PolarMode.sliding 1 1 true ∧
      ¬ stalePolarPoint.angle < 360 := by
  constructor
  · norm_num [polarData, polarPointAt, polarRadius, polarStartIdx,
      polarEndIdx, timeGet, jsOrNum, stalePolarPoint, List.range']
  · norm_num [stalePolarPoint]

/-- C9 (amended): every point produced by the polar transform has a radius
clamped into [0, 100] (after the optional normalization) and an angle
`(i / selectedData.length) * 360` lying in [0, 360), for every channel and in
both cumulative and sliding modes, provided the sliding-window index is
within the channel (`currentIndex < selectedData.length`; a stale index
yields `angle ≥ 360`, see the counterexample) and, when normalization is on,
the padded data range is nonzero (a constant channel divides `0 / 0`, which
is `NaN` in JS and escapes the clamp; under this hypothesis the rational
model agrees with the JS arithmetic). -/
theorem polarData_bounds_amended (selectedData timeData : List ℚ)
    (drMin drMax : ℚ) (mode : PolarMode) (currentIndex timeWindow : ℕ)
    (normalize : Bool)
    (hIdx : mode = PolarMode.sliding → currentIndex < selectedData.length)
    (_hRange : normalize = true → drMax - drMin ≠ 0)
    (p : PolarPoint)
    (hp : p ∈ polarData selectedData timeData drMin drMax mode currentIndex
        timeWindow normalize) :
    (0 ≤ p.radius ∧ p.radius ≤ 100) ∧
      (0 ≤ p.angle ∧ p.angle < 360) ∧
      p.angle = ((p.index : ℚ) / selectedData.length) * 360 := by
  unfold polarData at hp
  split_ifs at hp with hlen
  · exact absurd hp (List.not_mem_nil p)
  · simp only [List.mem_map] at hp
    obtain ⟨i, hi, hpi⟩ := hp
    rw [List.mem_range'_1] at hi
    have hse : polarStartIdx mode currentIndex timeWindow ≤
        polarEndIdx mode currentIndex selectedData.length := by
      cases mode with
      | cumulative => simp [polarStartIdx, polarEndIdx]
      | sliding =>
          simp only [polarStartIdx, polarEndIdx]
          omega
    have hiLen : i < selectedData.length := by
      cases mode with
      | cumulative =>
          have := hi.2
          simp only [polarStartIdx, polarEndIdx] at this
          omega
      | sliding =>
          have h1 := hi.2
          have h2 := hIdx rfl
          simp only [polarStartIdx, polarEndIdx] at h1 hse
          omega
    subst hpi
    simp only [polarPointAt, polarRadius]
    have hlenpos : 0 < (selectedData.length : ℚ) := by
      have : 0 < selectedData.length := Nat.pos_of_ne_zero hlen
      exact_mod_cast this
    have hfrac : (i : ℚ) / selectedData.length < 1 := by
      rw [div_lt_one hlenpos]
      exact_mod_cast hiLen
    refine ⟨⟨le_max_left _ _, max_le (by norm_num) (min_le_left _ _)⟩,
      ⟨?_, ?_⟩, by simp [polarPointAt]⟩
    · exact mul_nonneg
        (div_nonneg (Nat.cast_nonneg i) (Nat.cast_nonneg _)) (by norm_num)
    · linarith

/-- Witness for the amended C9 at a concrete input in sliding mode with an
in-range index and a nonzero normalization range. -/
theorem polarData_bounds_amended_witness :
    (PolarMode.sliding = PolarMode.sliding → 0 < ([(5 : ℚ)]).length) ∧
    (true = true → (10 : ℚ) - 0 ≠ 0) ∧
    samplePolarPoint ∈
      polarData [(5 : ℚ)] [] 0 10 PolarMode.sliding 0 1 true ∧
    ((0 ≤ samplePolarPoint.radius ∧ samplePolarPoint.radius ≤ 100) ∧
      (0 ≤ samplePolarPoint.angle ∧ samplePolarPoint.angle < 360) ∧
      samplePolarPoint.angle =
        ((samplePolarPoint.index : ℚ) / ([(5 : ℚ)]).length) * 360) :=
  ⟨fun _ => by norm_num,
    fun _ => by norm_num,
    by
      norm_num [polarData, polarPointAt, polarRadius, polarStartIdx,
        polarEndIdx, timeGet, jsOrNum, samplePolarPoint, List.range'],
    polarData_bounds_amended [(5 : ℚ)] [] 0 10 PolarMode.sliding 0 1 true
      (fun _ => by norm_num) (fun _ => by norm_num) samplePolarPoint
      (by
        norm_num [polarData, polarPointAt, polarRadius, polarStartIdx,
          polarEndIdx, timeGet, jsOrNum, samplePolarPoint, List.range'])⟩

/-- C5: the sliding-mode playback loop is cancellable by the play/pause flag
and cleaned up on teardown: whenever playback is off or the mode is not
`'sliding'`, the effect clears the pending timer and the sliding-window index
does not advance; the effect's cleanup always clears the pending timer; and
when the advancing index would reach `selectedData.length`, playback is set
to false and the index keeps its previous value. -/
theorem playback_cancellable_and_bounded (mode : PolarMode)
    (st : PolarPlaybackState) (speed dataLen : ℕ)
    (h : st.playback = false ∨ mode ≠ PolarMode.sliding) :
    ((playbackEffect mode st).timerPending = false ∧
      (playbackEffect mode st).currentIndex = st.currentIndex) ∧
    (∀ st' : PolarPlaybackState, (playbackCleanup st').timerPending = false) ∧
    (dataLen ≤ st.currentIndex + speed →
      (animateStep speed dataLen st).playback = false ∧
      (animateStep speed dataLen st).currentIndex = st.currentIndex) := by
  refine ⟨?_, fun st' => rfl, fun hreach => ?_⟩
  · unfold playbackEffect
    rw [if_neg]
    · exact ⟨rfl, rfl⟩
    · rintro ⟨h1, h2⟩
      rcases h with h | h
      · rw [h] at h1
        simp at h1
      · exact h h2
  · unfold animateStep
    rw [if_pos hreach]
    exact ⟨rfl, rfl⟩

/-- Witness for C5 at a concrete input: cumulative mode (timer cleared even
though playback is on), and an animate step that would reach the end of a
one-sample channel. -/
theorem playback_cancellable_and_bounded_witness :
    (samplePlaybackState.playback = false ∨
      PolarMode.cumulative ≠ PolarMode.sliding) ∧
    (((playbackEffect PolarMode.cumulative samplePlaybackState).timerPending =
        false ∧
      (playbackEffect PolarMode.cumulative samplePlaybackState).currentIndex =
        samplePlaybackState.currentIndex) ∧
    (∀ st' : PolarPlaybackState, (playbackCleanup st').timerPending = false) ∧
    (1 ≤ samplePlaybackState.currentIndex + 1 →
      (animateStep 1 1 samplePlaybackState).playback = false ∧
      (animateStep 1 1 samplePlaybackState).currentIndex =
        samplePlaybackState.currentIndex)) :=
  ⟨Or.inr (fun h => PolarMode.noConfusion h),
    playback_cancellable_and_bounded PolarMode.cumulative samplePlaybackState
      1 1 (Or.inr (fun h => PolarMode.noConfusion h))⟩

/-- C4: when the POST to the upload endpoint rejects, the failure is caught
at the call site and rendered as an inline error message, the data-loaded
callback is never invoked, exactly one request was issued (no retry), and the
uploading flag is reset to false. -/
theorem uploadFile_failure_handling (signalType : SignalType) (fileSize : ℕ)
    (e : Option String) (st : UploadState)
    (hsize : fileSize ≤ sizeLimits signalType * 1024 * 1024) :
    (uploadFile signalType fileSize (Except.error e) st).dataLoadedCalls = 0 ∧
    (uploadFile signalType fileSize (Except.error e) st).state.uploading =
      false ∧
    (uploadFile signalType fileSize (Except.error e) st).state.error =
      some (e.getD "Error uploading file") ∧
    (uploadFile signalType fileSize (Except.error e) st).requestsSent = 1 := by
  unfold uploadFile
  rw [if_neg (not_lt.mpr hsize)]
  exact ⟨rfl, rfl, rfl, rfl⟩

/-- Witness for C4 at a concrete input: a small stock-data file whose POST
rejects without an error payload. -/
theorem uploadFile_failure_handling_witness :
    (0 ≤ sizeLimits SignalType.stock * 1024 * 1024) ∧
    ((uploadFile SignalType.stock 0 (Except.error none)
        sampleUploadState).dataLoadedCalls = 0 ∧
      (uploadFile SignalType.stock 0 (Except.error none)
        sampleUploadState).state.uploading = false ∧
      (uploadFile SignalType.stock 0 (Except.error none)
        sampleUploadState).state.error =
        some ((none : Option String).getD "Error uploading file") ∧
      (uploadFile SignalType.stock 0 (Except.error none)
        sampleUploadState).requestsSent = 1) :=
  ⟨Nat.zero_le _,
    uploadFile_failure_handling SignalType.stock 0 none sampleUploadState
      (Nat.zero_le _)⟩

/-- C10: a file strictly exceeding the per-signal-type limit is rejected up
front: the error state is set to the "File too large" message, no network
request is issued, the data-loaded callback is not invoked, and the uploading
flag is left unchanged. -/
theorem uploadFile_too_large (signalType : SignalType) (fileSize : ℕ)
    (post : Except (Option String) Unit) (st : UploadState)
    (hsize : sizeLimits signalType * 1024 * 1024 < fileSize) :
    (uploadFile signalType fileSize post st).requestsSent = 0 ∧
    (uploadFile signalType fileSize post st).dataLoadedCalls = 0 ∧
    (uploadFile signalType fileSize post st).state.uploading = st.uploading ∧
    (uploadFile signalType fileSize post st).state.error =
      some ("File too large. Max size: " ++
        toString (sizeLimits signalType) ++ "MB") := by
  unfold uploadFile
  rw [if_pos hsize]
  exact ⟨rfl, rfl, rfl, rfl⟩

/-- Witness for C10 at a concrete input: a stock-data file one byte over the
100 MB limit, with a POST that would have succeeded. -/
theorem uploadFile_too_large_witness :
    (sizeLimits SignalType.stock * 1024 * 1024 < 104857601) ∧
    ((uploadFile SignalType.stock 104857601 (Except.ok ())
        sampleUploadState).requestsSent = 0 ∧
      (uploadFile SignalType.stock 104857601 (Except.ok ())
        sampleUploadState).dataLoadedCalls = 0 ∧
      (uploadFile SignalType.stock 104857601 (Except.ok ())
        sampleUploadState).state.uploading = sampleUploadState.uploading ∧
      (uploadFile SignalType.stock 104857601 (Except.ok ())
        sampleUploadState).state.error =
        some ("File too large. Max size: " ++
          toString (sizeLimits SignalType.stock) ++ "MB")) :=
  ⟨by norm_num [sizeLimits],
    uploadFile_too_large SignalType.stock 104857601 (Except.ok ())
      sampleUploadState (by norm_num [sizeLimits])⟩

end SignalViewer
